import Mathlib

/-!
Verification of the Typesense demo HTTP service (main.py): a shallow
embedding of its request handlers and of the startup bootstrap routine,
with theorems about filter assembly, pagination, error mapping, the
retry/backoff loop, the collection bootstrap phase, facet extraction and
the aggregate stats endpoint.

Conventions of the embedding:
- Python floats that merely pass through (prices, ratings, delays) are
  modelled as rationals; their decimal rendering is abstracted by toString.
- A call to the external Typesense engine is modelled as a function the
  handler receives, returning Except String with the textual message of
  the raised exception in the error case.
- A FastAPI handler returns either a JSON body or an HTTPException,
  modelled by the Resp type below.
-/

/-- Pydantic model Product (main.py lines 11-18). -/
structure Product where
  id : String
  name : String
  description : String
  category : String
  price : Rat
  rating : Rat
  tags : List String
  deriving DecidableEq

/-- Pydantic model SearchQuery (main.py lines 21-25); the three optional
fields default to None, i.e. none. -/
structure SearchQuery where
  query : String
  category : Option String
  min_price : Option Rat
  max_price : Option Rat
  deriving DecidableEq

/-- The filters list built in search_products (main.py lines 240-246).
The test on category is Python truthiness of an Optional[str], under which
both None and the empty string are skipped; the price bounds are tested
with "is not None", so a 0.0 bound is kept. -/
def search_filters (search_query : SearchQuery) : List String :=
  let filters : List String := []
  let filters := match search_query.category with
    | some c => if c = "" then filters else filters ++ ["category:=" ++ c]
    | none => filters
  let filters := match search_query.min_price with
    | some p => filters ++ ["price:>=" ++ toString p]
    | none => filters
  let filters := match search_query.max_price with
    | some p => filters ++ ["price:<=" ++ toString p]
    | none => filters
  filters

/-- Parameter structure handed to the engine by the POST /search/ handler
(main.py lines 233-249). -/
structure SearchParams where
  q : String
  query_by : String
  sort_by : String
  filter_by : Option String
  deriving DecidableEq

/-- The search_params dict built by search_products (main.py lines 233-249):
fixed query_by and sort_by, and filter_by set only when the filters list is
nonempty, to the clauses joined with the AND connective. -/
def search_products_params (search_query : SearchQuery) : SearchParams :=
  { q := search_query.query
    query_by := "name,description,tags"
    sort_by := "rating:desc,price:asc"
    filter_by :=
      if search_filters search_query = [] then none
      else some (String.intercalate " && " (search_filters search_query)) }

/-- The filter expression exactly as claim C1 reads it: one clause per
supplied (non-None) optional filter - an equality clause for category, a
lower bound for min_price, an upper bound for max_price - in that order,
joined by the AND connective, and no filter_by at all when no optional
filter is supplied. -/
def claim_filter_by (search_query : SearchQuery) : Option String :=
  let clauses :=
    (match search_query.category with
     | some c => ["category:=" ++ c]
     | none => [])
    ++ (match search_query.min_price with
        | some p => ["price:>=" ++ toString p]
        | none => [])
    ++ (match search_query.max_price with
        | some p => ["price:<=" ++ toString p]
        | none => [])
  if clauses = [] then none else some (String.intercalate " && " clauses)

/-- The filter expression as amended: as in claim C1, except that a supplied
category contributes its equality clause only when it is a nonempty string,
because the handler tests Python truthiness of the category, under which an
empty string is skipped exactly like an absent one. -/
def amended_filter_by (search_query : SearchQuery) : Option String :=
  let clauses :=
    (match search_query.category with
     | some c => if c = "" then [] else ["category:=" ++ c]
     | none => [])
    ++ (match search_query.min_price with
        | some p => ["price:>=" ++ toString p]
        | none => [])
    ++ (match search_query.max_price with
        | some p => ["price:<=" ++ toString p]
        | none => [])
  if clauses = [] then none else some (String.intercalate " && " clauses)

/-- C1 counterexample: a SearchQuery that supplies the optional category
filter as the empty string. The claim requires exactly one clause (the
equality clause for the supplied category) in filter_by, but the handler
sets no filter_by at all. -/
theorem search_filter_empty_category_cex :
    (⟨"phone", some "", none, none⟩ : SearchQuery).category.isSome = true ∧
    (search_products_params ⟨"phone", some "", none, none⟩).filter_by = none ∧
    claim_filter_by ⟨"phone", some "", none, none⟩ = some "category:=" ∧
    (search_products_params ⟨"phone", some "", none, none⟩).filter_by ≠
      claim_filter_by ⟨"phone", some "", none, none⟩ := by
  refine ⟨rfl, rfl, rfl, ?_⟩
  decide

/-- C1 (amended): for every SearchQuery, the filter_by parameter built by the
POST /search/ handler is exactly the conjunction, joined by the AND
connective, of one clause per supplied filter in the order category,
min_price, max_price - where the category clause is contributed only when
the supplied category is nonempty - and is absent when no clause results. -/
theorem search_filter_assembly (search_query : SearchQuery) :
    (search_products_params search_query).filter_by =
      amended_filter_by search_query := by
  rcases search_query with ⟨q, cat, minp, maxp⟩
  rcases cat with _ | c
  · rcases minp with _ | p <;> rcases maxp with _ | p2 <;>
      simp [search_products_params, search_filters, amended_filter_by]
  · by_cases hc : c = "" <;>
      rcases minp with _ | p <;> rcases maxp with _ | p2 <;>
        simp [search_products_params, search_filters, amended_filter_by, hc]

/-- HTTPException raised by a handler: status code and detail message. -/
structure HTTPError where
  status : Nat
  detail : String
  deriving DecidableEq

/-- Outcome of one handler invocation: a JSON body or an HTTPException. -/
inductive Resp (A : Type) where
  | ok (body : A)
  | httpError (e : HTTPError)
  deriving DecidableEq

/-- One hit of an engine search result: the code reads hit['document']. -/
structure Hit (Doc : Type) where
  document : Doc
  deriving DecidableEq

/-- Engine search result as the handlers read it: the 'found' count, the
'hits' list, and the optional 'search_time_ms' field. -/
structure SearchResult (Doc : Type) where
  found : Nat
  hits : List (Hit Doc)
  search_time_ms : Option Nat
  deriving DecidableEq

/-- One collection as returned by client.collections.retrieve(): the code
reads collection['name'] and collection.get('fields', []). -/
structure CollectionInfo (F : Type) where
  name : String
  fields : Option (List F)
  deriving DecidableEq

/-- Parameter dict of the GET /products/ engine search (main.py 181-185). -/
structure ListParams where
  q : String
  per_page : Int
  page : Int
  deriving DecidableEq

/-- Message of the ZeroDivisionError that Python raises for an integer
division by zero. -/
def zeroDivisionMsg : String := "integer division or modulo by zero"

/-- The search_params dict built by get_all_products (main.py 181-185);
Python // is floor division, Int.fdiv. Only meaningful when limit is not 0;
the handler models the limit-0 ZeroDivisionError separately. -/
def get_all_products_params (limit offset : Int) : ListParams :=
  { q := "*", per_page := limit, page := Int.fdiv offset limit + 1 }

/-- Body of the GET /products/ response (main.py 188-193). -/
structure ProductsPage (Doc : Type) where
  total : Nat
  page : Int
  per_page : Int
  products : List Doc
  deriving DecidableEq

/-- Handler of GET /products/ (main.py 177-195). Everything in the try block,
including the page computation, is covered by the generic except clause that
raises a 400; when limit = 0 the expression offset // limit raises
ZeroDivisionError before the engine is called. -/
def get_all_products {Doc : Type}
    (search : ListParams → Except String (SearchResult Doc))
    (limit offset : Int) : Resp (ProductsPage Doc) :=
  if limit = 0 then
    .httpError ⟨400, "Failed to get products: " ++ zeroDivisionMsg⟩
  else
    match search (get_all_products_params limit offset) with
    | .ok results =>
      .ok ⟨results.found, (get_all_products_params limit offset).page, limit,
           results.hits.map (fun h => h.document)⟩
    | .error e => .httpError ⟨400, "Failed to get products: " ++ e⟩

/-- Body of the POST /products/ response (main.py 203). -/
structure AddProductBody where
  message : String
  product : Product
  deriving DecidableEq

/-- Handler of POST /products/ (main.py 198-205). -/
def add_product (create : Product → Except String Product)
    (product : Product) : Resp AddProductBody :=
  match create product with
  | .ok result => .ok ⟨"Product added successfully", result⟩
  | .error e => .httpError ⟨400, "Failed to add product: " ++ e⟩

/-- Handler of GET /products/product_id (main.py 208-215). -/
def get_product {Doc : Type} (retrieve : String → Except String Doc)
    (product_id : String) : Resp Doc :=
  match retrieve product_id with
  | .ok product => .ok product
  | .error e => .httpError ⟨404, "Product not found: " ++ e⟩

/-- Body of the DELETE /products/product_id response (main.py 223). -/
structure MessageBody where
  message : String
  deriving DecidableEq

/-- Handler of DELETE /products/product_id (main.py 218-225). -/
def delete_product (deleteDoc : String → Except String Unit)
    (product_id : String) : Resp MessageBody :=
  match deleteDoc product_id with
  | .ok _ => .ok ⟨"Product " ++ product_id ++ " deleted successfully"⟩
  | .error e => .httpError ⟨404, "Failed to delete product: " ++ e⟩

/-- Body of the POST /search/ response (main.py 254-258). -/
structure SearchBody (Doc : Type) where
  query : String
  found : Nat
  results : List (Hit Doc)
  deriving DecidableEq

/-- Handler of POST /search/ (main.py 228-260). -/
def search_products {Doc : Type}
    (search : SearchParams → Except String (SearchResult Doc))
    (search_query : SearchQuery) : Resp (SearchBody Doc) :=
  match search (search_products_params search_query) with
  | .ok results => .ok ⟨search_query.query, results.found, results.hits⟩
  | .error e => .httpError ⟨400, "Search failed: " ++ e⟩

/-- Handler of GET /admin/collections (main.py 263-270). -/
def get_all_collections {F : Type}
    (retrieve : Except String (List (CollectionInfo F))) :
    Resp (List (CollectionInfo F)) :=
  match retrieve with
  | .ok collections => .ok collections
  | .error e => .httpError ⟨400, "Failed to get collections: " ++ e⟩

/-- Handler of GET /admin/collection/collection_name (main.py 273-280). -/
def get_collection_info {C : Type} (retrieve : String → Except String C)
    (collection_name : String) : Resp C :=
  match retrieve collection_name with
  | .ok collection => .ok collection
  | .error e => .httpError ⟨404, "Collection not found: " ++ e⟩

/-- Parameter dict of the per-collection count searches (main.py 291-294
and 319-322). -/
structure CountParams where
  q : String
  per_page : Int
  deriving DecidableEq

/-- Body of the GET /admin/collection/collection_name/stats response
(main.py 296-301). -/
structure CollectionStatsBody (C : Type) where
  collection_name : String
  schema : C
  document_count : Nat
  search_time_ms : Nat
  deriving DecidableEq

/-- Handler of GET /admin/collection/collection_name/stats
(main.py 283-303). -/
def get_collection_stats {C Doc : Type} (retrieve : String → Except String C)
    (searchDocs : String → CountParams → Except String (SearchResult Doc))
    (collection_name : String) : Resp (CollectionStatsBody C) :=
  match retrieve collection_name with
  | .error e => .httpError ⟨400, "Failed to get collection stats: " ++ e⟩
  | .ok collection_info =>
    match searchDocs collection_name ⟨"*", 0⟩ with
    | .error e => .httpError ⟨400, "Failed to get collection stats: " ++ e⟩
    | .ok search_result =>
      .ok ⟨collection_name, collection_info, search_result.found,
           search_result.search_time_ms.getD 0⟩

/-- A JSON value that is either a number or a string: the document_count
field of a stats entry is the found count on success and the string
"unknown" on failure (main.py 326-336). -/
inductive JsonCount where
  | num (n : Nat)
  | str (s : String)
  deriving DecidableEq

/-- One entry of the collections list in the GET /admin/typesense/stats
response (main.py 326-336). -/
structure CollectionStatsEntry where
  name : String
  document_count : JsonCount
  fields : Nat
  deriving DecidableEq

/-- Body of the GET /admin/typesense/stats response (main.py 338-342). -/
structure TypesenseStatsBody where
  total_collections : Nat
  total_documents : Nat
  collections : List CollectionStatsEntry
  deriving DecidableEq

/-- One iteration of the per-collection loop of get_typesense_stats
(main.py 317-336): on a successful count search the found count is added to
the running total and recorded; on any failure the inner except appends an
entry whose document_count is the string "unknown" and the total is left
unchanged. The accumulator is (total_docs, collection_stats). -/
def stats_entry_step {F Doc : Type}
    (searchDocs : String → CountParams → Except String (SearchResult Doc))
    (acc : Nat × List CollectionStatsEntry) (collection : CollectionInfo F) :
    Nat × List CollectionStatsEntry :=
  match searchDocs collection.name ⟨"*", 0⟩ with
  | .ok search_result =>
    (acc.1 + search_result.found,
     acc.2 ++ [⟨collection.name, .num search_result.found,
               (collection.fields.getD []).length⟩])
  | .error _ =>
    (acc.1,
     acc.2 ++ [⟨collection.name, .str "unknown",
               (collection.fields.getD []).length⟩])

/-- Handler of GET /admin/typesense/stats (main.py 306-344). -/
def get_typesense_stats {F Doc : Type}
    (retrieve : Except String (List (CollectionInfo F)))
    (searchDocs : String → CountParams → Except String (SearchResult Doc)) :
    Resp TypesenseStatsBody :=
  match retrieve with
  | .error e => .httpError ⟨400, "Failed to get Typesense stats: " ++ e⟩
  | .ok collections =>
    let r := collections.foldl (stats_entry_step searchDocs) (0, [])
    .ok ⟨collections.length, r.1, r.2⟩

/-- One facet count as the code reads it: count['value'] (main.py 361). -/
structure FacetCount where
  value : String
  deriving DecidableEq

/-- One facet of the result: field_name and its counts (main.py 359-361). -/
structure Facet where
  field_name : String
  counts : List FacetCount
  deriving DecidableEq

/-- Parameter dict of the GET /categories/ engine search (main.py 351-354). -/
structure FacetParams where
  q : String
  facet_by : String
  deriving DecidableEq

/-- Engine result as GET /categories/ reads it: the optional facet_counts
list (the code tests 'facet_counts' in results). -/
structure FacetResult where
  facet_counts : Option (List Facet)
  deriving DecidableEq

/-- Body of the GET /categories/ response (main.py 363). -/
structure CategoriesBody where
  categories : List String
  deriving DecidableEq

/-- The categories list built by get_categories (main.py 357-361): starting
from [], each facet whose field_name is "category" overwrites the list with
its values, so with several matching facets the last one would win. -/
def categories_of (results : FacetResult) : List String :=
  match results.facet_counts with
  | none => []
  | some facets =>
    facets.foldl
      (fun categories facet =>
        if facet.field_name == "category" then
          facet.counts.map (fun c => c.value)
        else categories)
      []

/-- Handler of GET /categories/ (main.py 347-365). -/
def get_categories (search : FacetParams → Except String FacetResult) :
    Resp CategoriesBody :=
  match search ⟨"*", "category"⟩ with
  | .ok results => .ok ⟨categories_of results⟩
  | .error e => .httpError ⟨400, "Failed to get categories: " ++ e⟩

/-- Parameter dict of the GET /recommendations/product_id engine search
(main.py 376-382). -/
structure RecParams where
  q : String
  query_by : String
  filter_by : String
  per_page : Int
  sort_by : String
  deriving DecidableEq

/-- Body of the GET /recommendations/product_id response (main.py 386-389). -/
structure RecommendationsBody (Doc : Type) where
  source_product : Product
  recommendations : List (Hit Doc)
  deriving DecidableEq

/-- Handler of GET /recommendations/product_id (main.py 368-391). -/
def get_recommendations {Doc : Type}
    (retrieve : String → Except String Product)
    (search : RecParams → Except String (SearchResult Doc))
    (product_id : String) (limit : Int) : Resp (RecommendationsBody Doc) :=
  match retrieve product_id with
  | .error e => .httpError ⟨400, "Failed to get recommendations: " ++ e⟩
  | .ok source_product =>
    match search ⟨String.intercalate " " source_product.tags,
                  "tags,category,name", "id:!=" ++ product_id,
                  limit, "rating:desc"⟩ with
    | .error e => .httpError ⟨400, "Failed to get recommendations: " ++ e⟩
    | .ok results => .ok ⟨source_product, results.hits⟩

/-- Body of the GET /health response (main.py 166-174). -/
structure HealthBody where
  status : String
  typesense : Bool
  collections : Option Nat
  error : Option String
  deriving DecidableEq

/-- Handler of GET /health (main.py 166-174): an engine failure is reported
inside a normal 200 body, never as an HTTPException. -/
def health_check {F : Type}
    (retrieve : Except String (List (CollectionInfo F))) : Resp HealthBody :=
  match retrieve with
  | .ok collections => .ok ⟨"healthy", true, some collections.length, none⟩
  | .error e => .ok ⟨"degraded", false, none, some e⟩

/-- Handler of GET / (main.py 161-163): no engine call at all. -/
def root : Resp MessageBody := .ok ⟨"Welcome to Typesense Demo API"⟩

/-- Fixed demo collection name (main.py line 40). -/
def COLLECTION_NAME : String := "products"

/-- One field of the collection schema (main.py 44-50); facet defaults to
false where the dict omits it. -/
structure FieldSchema where
  name : String
  type : String
  facet : Bool
  deriving DecidableEq

/-- Fixed collection schema (main.py 41-53). -/
structure CollectionSchema where
  name : String
  fields : List FieldSchema
  default_sorting_field : String
  deriving DecidableEq

/-- COLLECTION_SCHEMA (main.py 41-53). -/
def COLLECTION_SCHEMA : CollectionSchema :=
  { name := COLLECTION_NAME
    fields :=
      [⟨"id", "string", false⟩,
       ⟨"name", "string", false⟩,
       ⟨"description", "string", false⟩,
       ⟨"category", "string", true⟩,
       ⟨"price", "float", true⟩,
       ⟨"rating", "float", true⟩,
       ⟨"tags", "string[]", true⟩]
    default_sorting_field := "rating" }

/-- The fixed sample_products list (main.py 87-133); prices and ratings are
the exact rational values of the decimal literals. -/
def sample_products : List Product :=
  [⟨"1", "iPhone 15 Pro",
    "Latest Apple smartphone with advanced camera system", "Electronics",
    99999 / 100, 47 / 10, ["smartphone", "apple", "premium", "camera"]⟩,
   ⟨"2", "Samsung Galaxy S24",
    "Flagship Android phone with AI features", "Electronics",
    89999 / 100, 45 / 10, ["smartphone", "samsung", "android", "AI"]⟩,
   ⟨"3", "MacBook Pro M3",
    "Professional laptop with M3 chip", "Computers",
    199999 / 100, 48 / 10, ["laptop", "apple", "professional", "M3"]⟩,
   ⟨"4", "Dell XPS 13",
    "Ultrabook with premium design", "Computers",
    129999 / 100, 44 / 10, ["laptop", "dell", "ultrabook", "portable"]⟩,
   ⟨"5", "Sony WH-1000XM5",
    "Noise-canceling wireless headphones", "Audio",
    39999 / 100, 46 / 10, ["headphones", "sony", "wireless", "noise-canceling"]⟩]

/-- Observable steps performed by setup_typesense: reachability calls,
sleeps, print lines, and the three provisioning calls against the engine. -/
inductive SetupAction where
  | attemptReach (k : Nat)
  | sleep (d : Rat)
  | log (msg : String)
  | deleteCollection (name : String)
  | createCollection (schema : CollectionSchema)
  | importDocuments (docs : List Product)
  deriving DecidableEq

/-- max_retries (main.py line 58). -/
def max_retries : Nat := 10

/-- Environment of one setup_typesense run: the outcome of the reachability
call on each attempt, and the outcomes of the delete, create and import
calls of the provisioning phase (error carries the exception text). -/
structure BootstrapEnv where
  reach : Nat → Except String Unit
  deleteOutcome : Except String Unit
  createOutcome : Except String Unit
  importOutcome : Except String Unit

/-- The retry loop of setup_typesense (main.py 61-74), written with explicit
fuel: fuel + attempt = max_retries at every call, so fuel = 0 is the state
after the last iteration (unreachable from the top-level call, which starts
with fuel = max_retries > 0). On a failed attempt that is not the last
(attempt < max_retries - 1, i.e. fuel > 1) the loop prints, sleeps the
current delay, multiplies the delay by 1.5 and retries; on the last failed
attempt it prints the give-up line and the whole function returns. The
result is the performed actions and whether the connection succeeded.
retry_delay starts at 2 and every value it takes is a dyadic rational, so
Python float arithmetic computes it exactly and Rat models it faithfully. -/
def connectLoopAux (reach : Nat → Except String Unit) :
    Nat → Nat → Rat → List SetupAction × Bool
  | 0, _, _ => ([], false)
  | fuel + 1, attempt, retry_delay =>
    match reach attempt with
    | .ok _ =>
      ([.attemptReach attempt,
        .log ("Connected to Typesense on attempt " ++ toString (attempt + 1))],
       true)
    | .error e =>
      if fuel = 0 then
        ([.attemptReach attempt,
          .log ("Failed to connect to Typesense after " ++
                toString max_retries ++ " attempts: " ++ e)],
         false)
      else
        let r := connectLoopAux reach fuel (attempt + 1) (retry_delay * (3 / 2))
        (.attemptReach attempt ::
         .log ("Attempt " ++ toString (attempt + 1) ++ " failed: " ++ e ++
               ". Retrying in " ++ toString retry_delay ++ " seconds...") ::
         .sleep retry_delay :: r.1,
         r.2)

/-- Body of the outer try block of setup_typesense (main.py 76-137): the
delete of a pre-existing collection sits in an inner try whose bare except
does nothing, so the phase continues identically whether the delete
succeeds or fails; then the create and, if it succeeds, the import run,
the first failure escaping as the returned exception text. -/
def setup_body (env : BootstrapEnv) : List SetupAction × Option String :=
  let deleteActs := match env.deleteOutcome with
    | .ok _ => [SetupAction.deleteCollection COLLECTION_NAME]
    | .error _ => [SetupAction.deleteCollection COLLECTION_NAME]
  match env.createOutcome with
  | .error e =>
    (deleteActs ++ [SetupAction.createCollection COLLECTION_SCHEMA], some e)
  | .ok _ =>
    match env.importOutcome with
    | .error e =>
      (deleteActs ++ [SetupAction.createCollection COLLECTION_SCHEMA,
                      SetupAction.importDocuments sample_products], some e)
    | .ok _ =>
      (deleteActs ++ [SetupAction.createCollection COLLECTION_SCHEMA,
                      SetupAction.importDocuments sample_products,
                      SetupAction.log "Typesense setup completed successfully!"],
       none)

/-- setup_typesense (main.py 56-140): run the retry loop starting with
retry_delay = 2; if it never connects the function returns at once,
otherwise the provisioning phase runs and its escaping exception, if any,
is caught by the outer except and only printed. The second component
records whether an exception escapes setup_typesense itself; every path
ends in false because both the retry loop and the outer try swallow all
failures. -/
def setup_typesense (env : BootstrapEnv) : List SetupAction × Bool :=
  let conn := connectLoopAux env.reach max_retries 0 2
  if conn.2 then
    match setup_body env with
    | (acts, some e) =>
      (conn.1 ++ acts ++ [SetupAction.log ("Error setting up Typesense: " ++ e)],
       false)
    | (acts, none) => (conn.1 ++ acts, false)
  else (conn.1, false)

/-- Durations of the sleep actions of a trace, in order. -/
def sleepsOf (t : List SetupAction) : List Rat :=
  t.filterMap (fun a => match a with | .sleep d => some d | _ => none)

/-- Number of reachability calls of a trace. -/
def reachCallsOf (t : List SetupAction) : Nat :=
  (t.filterMap (fun a => match a with | .attemptReach k => some k | _ => none)).length

/-- Actions of the provisioning phase: collection delete, create, import. -/
def isProvisionAction : SetupAction → Bool
  | .deleteCollection _ => true
  | .createCollection _ => true
  | .importDocuments _ => true
  | _ => false

/-- C4: for every limit > 0 and offset >= 0, the search_params dict that
get_all_products hands to the engine carries page = offset / limit + 1
(integer division; Python floor division agrees with it on these signs)
and per_page = limit. -/
theorem get_all_products_pagination (limit offset : Int)
    (hl : 0 < limit) (ho : 0 ≤ offset) :
    (get_all_products_params limit offset).page = offset / limit + 1 ∧
    (get_all_products_params limit offset).per_page = limit := by
  constructor
  · show Int.fdiv offset limit + 1 = offset / limit + 1
    rw [Int.fdiv_eq_ediv offset (le_of_lt hl)]
  · rfl

/-- C4 witness: limit = 10, offset = 25 gives page 3. -/
theorem get_all_products_pagination_witness :
    ((get_all_products_params 10 25).page = 25 / 10 + 1 ∧
     (get_all_products_params 10 25).per_page = 10) ∧
    (get_all_products_params 10 25).page = 3 :=
  ⟨get_all_products_pagination 10 25 (by decide) (by decide), by decide⟩

/-- C10: called with limit = 0, GET /products/ answers 400 with the
ZeroDivisionError text, and does so for every engine whatsoever - the
division happens inside the try block before the engine is consulted, so no
engine call can influence the outcome. -/
theorem get_all_products_zero_limit {Doc : Type}
    (search : ListParams → Except String (SearchResult Doc)) (offset : Int) :
    get_all_products search 0 offset =
      .httpError ⟨400, "Failed to get products: " ++ zeroDivisionMsg⟩ := rfl

/-- C5: whenever the engine delete call fails - in particular on a not-found
failure - DELETE /products/product_id answers 404. -/
theorem delete_product_engine_failure (deleteDoc : String → Except String Unit)
    (product_id e : String) (h : deleteDoc product_id = Except.error e) :
    delete_product deleteDoc product_id =
      .httpError ⟨404, "Failed to delete product: " ++ e⟩ := by
  simp [delete_product, h]

/-- C5 witness: deleting product 42 when the engine reports Not Found. -/
theorem delete_product_engine_failure_witness :
    delete_product (fun _ => Except.error "Not Found") "42" =
      .httpError ⟨404, "Failed to delete product: Not Found"⟩ :=
  delete_product_engine_failure (fun _ => Except.error "Not Found") "42"
    "Not Found" rfl

/-- The eleven endpoints whose handler raises an HTTPException on engine
failure, plus GET /health which does not. -/
inductive Endpoint where
  | getAllProducts
  | addProduct
  | getProduct
  | deleteProduct
  | searchProducts
  | getAllCollections
  | getCollectionInfo
  | getCollectionStats
  | getTypesenseStats
  | getCategories
  | getRecommendations
  deriving DecidableEq

/-- The HTTPException of a handler outcome, if any. -/
def respFailure {A : Type} : Resp A → Option HTTPError
  | .ok _ => none
  | .httpError e => some e

/-- The HTTPException each handler produces when its first reached engine
call raises an exception whose text is e; the remaining arguments take
innocuous representative values (limit 10 so the listing reaches the
engine). -/
def handlerFailure (ep : Endpoint) (e : String) : Option HTTPError :=
  match ep with
  | .getAllProducts =>
    respFailure (@get_all_products Unit (fun _ => Except.error e) 10 0)
  | .addProduct =>
    respFailure (add_product (fun _ => Except.error e)
      ⟨"1", "n", "d", "c", 1, 1, []⟩)
  | .getProduct =>
    respFailure (@get_product Unit (fun _ => Except.error e) "1")
  | .deleteProduct =>
    respFailure (delete_product (fun _ => Except.error e) "1")
  | .searchProducts =>
    respFailure (@search_products Unit (fun _ => Except.error e)
      ⟨"q", none, none, none⟩)
  | .getAllCollections =>
    respFailure (@get_all_collections Unit (Except.error e))
  | .getCollectionInfo =>
    respFailure (@get_collection_info Unit (fun _ => Except.error e) "products")
  | .getCollectionStats =>
    respFailure (@get_collection_stats Unit Unit (fun _ => Except.error e)
      (fun _ _ => Except.error e) "products")
  | .getTypesenseStats =>
    respFailure (@get_typesense_stats Unit Unit (Except.error e)
      (fun _ _ => Except.error e))
  | .getCategories =>
    respFailure (get_categories (fun _ => Except.error e))
  | .getRecommendations =>
    respFailure (@get_recommendations Unit (fun _ => Except.error e)
      (fun _ => Except.error e) "1" 5)

/-- The three entity-lookup endpoints that answer 404 on failure. -/
def lookupEndpoints : List Endpoint :=
  [.getProduct, .deleteProduct, .getCollectionInfo]

/-- C2 counterexample: the detail of the HTTP error is not the engine error
text verbatim - the handler puts a fixed context string before it - and the
GET /health handler does not convert an engine failure into an HTTP error
at all: it answers with a normal degraded body. -/
theorem handler_error_detail_cex :
    handlerFailure .deleteProduct "Not Found" =
      some ⟨404, "Failed to delete product: Not Found"⟩ ∧
    handlerFailure .deleteProduct "Not Found" ≠ some ⟨404, "Not Found"⟩ ∧
    @health_check Unit (Except.error "Connection refused") =
      .ok ⟨"degraded", false, none, some "Connection refused"⟩ :=
  ⟨by decide, by decide, by decide⟩

/-- C2 (amended): every handler that reports failures as HTTP errors (all
endpoints except GET /, which makes no engine call, and GET /health, which
reports engine failure inside a 200 body) converts an engine failure into
an HTTPException whose status is 404 for the three entity lookups
(GET /products/id, DELETE /products/id, GET /admin/collection/name) and 400
for the rest, and whose detail is a fixed handler-specific context string
followed by the original error text. -/
theorem handler_error_mapping (ep : Endpoint) :
    ∃ p : String, ∀ e : String,
      handlerFailure ep e =
        some ⟨if ep ∈ lookupEndpoints then 404 else 400, p ++ e⟩ := by
  cases ep <;> exact ⟨_, fun e => rfl⟩

theorem sleepsOf_append (a b : List SetupAction) :
    sleepsOf (a ++ b) = sleepsOf a ++ sleepsOf b := by
  simp [sleepsOf]

theorem reachCallsOf_append (a b : List SetupAction) :
    reachCallsOf (a ++ b) = reachCallsOf a + reachCallsOf b := by
  simp [reachCallsOf]

/-- Shape of the retry loop for any outcome sequence: at least one and at
most fuel reachability calls; the sleeps are the geometric backoff sequence
delay, delay * 1.5, ... with one sleep per attempt except the last one
performed; and when the loop never connects it uses up all its fuel. -/
theorem connectLoopAux_backoff (reach : Nat → Except String Unit) :
    ∀ (fuel attempt : Nat) (delay : Rat), 0 < fuel →
      1 ≤ reachCallsOf (connectLoopAux reach fuel attempt delay).1 ∧
      reachCallsOf (connectLoopAux reach fuel attempt delay).1 ≤ fuel ∧
      sleepsOf (connectLoopAux reach fuel attempt delay).1 =
        (List.range (reachCallsOf (connectLoopAux reach fuel attempt delay).1 - 1)).map
          (fun i => delay * (3 / 2) ^ i) ∧
      ((connectLoopAux reach fuel attempt delay).2 = false →
        reachCallsOf (connectLoopAux reach fuel attempt delay).1 = fuel) := by
  intro fuel
  induction fuel with
  | zero => intro attempt delay h; omega
  | succ fuel ih =>
    intro attempt delay _
    cases hr : reach attempt with
    | ok u =>
      simp [connectLoopAux, hr, reachCallsOf, sleepsOf]
    | error e =>
      by_cases hf : fuel = 0
      · subst hf
        simp [connectLoopAux, hr, reachCallsOf, sleepsOf]
      · have hfuel : 0 < fuel := Nat.pos_of_ne_zero hf
        obtain ⟨ih1, ih2, ih3, ih4⟩ := ih (attempt + 1) (delay * (3 / 2)) hfuel
        have hstep : connectLoopAux reach (fuel + 1) attempt delay =
            (SetupAction.attemptReach attempt ::
             SetupAction.log ("Attempt " ++ toString (attempt + 1) ++
               " failed: " ++ e ++ ". Retrying in " ++ toString delay ++
               " seconds...") ::
             SetupAction.sleep delay ::
               (connectLoopAux reach fuel (attempt + 1) (delay * (3 / 2))).1,
             (connectLoopAux reach fuel (attempt + 1) (delay * (3 / 2))).2) := by
          simp [connectLoopAux, hr, hf]
        rw [hstep]
        simp only [reachCallsOf, sleepsOf, List.filterMap_cons, List.length_cons]
        simp only [reachCallsOf, sleepsOf] at ih1 ih2 ih3 ih4
        set n := ((connectLoopAux reach fuel (attempt + 1) (delay * (3 / 2))).1.filterMap
            (fun a => match a with | .attemptReach k => some k | _ => none)).length
        have hn1 : n - 1 + 1 = n := Nat.succ_pred_eq_of_pos ih1
        refine ⟨by omega, by omega, ?_, fun h2 => by rw [ih4 h2]⟩
        have hrange : n + 1 - 1 = n := by omega
        rw [hrange]
        calc delay ::
              (connectLoopAux reach fuel (attempt + 1) (delay * (3 / 2))).1.filterMap
                (fun a => match a with | .sleep d => some d | _ => none)
            = delay * (3 / 2) ^ (0 : ℕ) ::
                List.map ((fun i => delay * (3 / 2) ^ i) ∘ Nat.succ)
                  (List.range (n - 1)) := by
              rw [ih3]
              simp only [pow_zero, mul_one]
              congr 1
              apply List.map_congr_left
              intro i _
              simp only [Function.comp_apply]
              rw [pow_succ]
              ring
          _ = List.map (fun i => delay * (3 / 2) ^ i) (List.range (n - 1 + 1)) := by
              rw [List.range_succ_eq_map, List.map_cons, List.map_map]
          _ = List.map (fun i => delay * (3 / 2) ^ i) (List.range n) := by
              rw [hn1]

/-- Provisioning-phase actions contribute no sleeps and no reachability
calls to the trace. -/
theorem setup_body_no_loop_actions (env : BootstrapEnv) :
    sleepsOf (setup_body env).1 = [] ∧ reachCallsOf (setup_body env).1 = 0 := by
  rcases env with ⟨r, d, c, i⟩
  cases d <;> cases c <;> cases i <;>
    simp [setup_body, sleepsOf, reachCallsOf]

/-- C3: under any sequence of reachability outcomes, setup_typesense makes
between 1 and 10 connection attempts, and the sleep durations of its trace
are exactly 2, 2 * 1.5, 2 * 1.5 ^ 2, ... with one sleep per attempt except
the last attempt performed - so no sleep follows a successful attempt nor
the final failed attempt. -/
theorem bootstrap_backoff (env : BootstrapEnv) :
    1 ≤ reachCallsOf (setup_typesense env).1 ∧
    reachCallsOf (setup_typesense env).1 ≤ max_retries ∧
    sleepsOf (setup_typesense env).1 =
      (List.range (reachCallsOf (setup_typesense env).1 - 1)).map
        (fun i => (2 : Rat) * (3 / 2) ^ i) := by
  obtain ⟨h1, h2, h3, h4⟩ :=
    connectLoopAux_backoff env.reach max_retries 0 2 (by decide)
  unfold setup_typesense
  cases hc : (connectLoopAux env.reach max_retries 0 2).2 with
  | false =>
    simp only [hc, if_false]
    exact ⟨h1, h2, h3⟩
  | true =>
    simp only [hc, if_true]
    rcases hb : setup_body env with ⟨acts, exc⟩
    obtain ⟨hb1, hb2⟩ := setup_body_no_loop_actions env
    rw [hb] at hb1 hb2
    cases exc with
    | none =>
      simp only [reachCallsOf_append, sleepsOf_append]
      simp only [reachCallsOf, sleepsOf] at hb1 hb2 ⊢
      rw [hb1, hb2]
      simpa using ⟨h1, h2, h3⟩
    | some e =>
      simp only [List.append_assoc, reachCallsOf_append, sleepsOf_append]
      simp only [reachCallsOf, sleepsOf] at hb1 hb2 ⊢
      rw [hb1, hb2]
      simpa using ⟨h1, h2, h3⟩

/-- The retry loop performs no provisioning action. -/
theorem connectLoopAux_no_provision (reach : Nat → Except String Unit) :
    ∀ (fuel attempt : Nat) (delay : Rat),
      ∀ a ∈ (connectLoopAux reach fuel attempt delay).1,
        isProvisionAction a = false := by
  intro fuel
  induction fuel with
  | zero => intro attempt delay a ha; simp [connectLoopAux] at ha
  | succ fuel ih =>
    intro attempt delay a ha
    cases hr : reach attempt with
    | ok u =>
      simp [connectLoopAux, hr] at ha
      rcases ha with h | h <;> simp [h, isProvisionAction]
    | error e =>
      by_cases hf : fuel = 0
      · subst hf
        simp [connectLoopAux, hr] at ha
        rcases ha with h | h <;> simp [h, isProvisionAction]
      · simp [connectLoopAux, hr, hf] at ha
        rcases ha with h | h | h | h
        · simp [h, isProvisionAction]
        · simp [h, isProvisionAction]
        · simp [h, isProvisionAction]
        · exact ih (attempt + 1) (delay * (3 / 2)) a h

/-- When every attempted reachability call fails, the retry loop ends
unconnected and its trace carries the give-up line. -/
theorem connectLoopAux_all_fail (reach : Nat → Except String Unit) :
    ∀ (fuel attempt : Nat) (delay : Rat), 0 < fuel →
      (∀ k, attempt ≤ k → k < attempt + fuel → ∃ e, reach k = Except.error e) →
      (connectLoopAux reach fuel attempt delay).2 = false ∧
      ∃ e, SetupAction.log ("Failed to connect to Typesense after " ++
            toString max_retries ++ " attempts: " ++ e) ∈
          (connectLoopAux reach fuel attempt delay).1 := by
  intro fuel
  induction fuel with
  | zero => intro attempt delay h; omega
  | succ fuel ih =>
    intro attempt delay _ hall
    obtain ⟨e, hre⟩ := hall attempt (le_refl attempt) (by omega)
    by_cases hf : fuel = 0
    · subst hf
      refine ⟨by simp [connectLoopAux, hre], e, by simp [connectLoopAux, hre]⟩
    · have hfuel : 0 < fuel := Nat.pos_of_ne_zero hf
      obtain ⟨ih1, e2, ih2⟩ := ih (attempt + 1) (delay * (3 / 2)) hfuel
        (fun k hk1 hk2 => hall k (by omega) (by omega))
      refine ⟨by simp [connectLoopAux, hre, hf, ih1], e2, ?_⟩
      simp [connectLoopAux, hre, hf]
      exact Or.inr ih2

/-- C7: when all 10 reachability attempts fail, setup_typesense returns
normally without raising (second component false), its trace is exactly the
trace of the retry loop - the delete/create/import phase is skipped
entirely, so no provisioning action occurs - and the give-up failure line
is logged. -/
theorem bootstrap_all_fail_degraded (env : BootstrapEnv)
    (h : ∀ k, k < max_retries → ∃ e, env.reach k = Except.error e) :
    (setup_typesense env).2 = false ∧
    (setup_typesense env).1 = (connectLoopAux env.reach max_retries 0 2).1 ∧
    (∀ a ∈ (setup_typesense env).1, isProvisionAction a = false) ∧
    ∃ e, SetupAction.log ("Failed to connect to Typesense after " ++
          toString max_retries ++ " attempts: " ++ e) ∈
        (setup_typesense env).1 := by
  obtain ⟨hconn, hlog⟩ :=
    connectLoopAux_all_fail env.reach max_retries 0 2 (by decide)
      (fun k hk1 hk2 => h k (by omega))
  unfold setup_typesense
  simp only [hconn, if_false]
  exact ⟨rfl, rfl, connectLoopAux_no_provision env.reach max_retries 0 2, hlog⟩

/-- C7 witness: an engine that always raises "boom". -/
theorem bootstrap_all_fail_degraded_witness :
    (setup_typesense ⟨fun _ => Except.error "boom", Except.ok (),
        Except.ok (), Except.ok ()⟩).2 = false ∧
    (setup_typesense ⟨fun _ => Except.error "boom", Except.ok (),
        Except.ok (), Except.ok ()⟩).1 =
      (connectLoopAux (fun _ => Except.error "boom") max_retries 0 2).1 ∧
    (∀ a ∈ (setup_typesense ⟨fun _ => Except.error "boom", Except.ok (),
        Except.ok (), Except.ok ()⟩).1, isProvisionAction a = false) ∧
    ∃ e, SetupAction.log ("Failed to connect to Typesense after " ++
          toString max_retries ++ " attempts: " ++ e) ∈
        (setup_typesense ⟨fun _ => Except.error "boom", Except.ok (),
            Except.ok (), Except.ok ()⟩).1 :=
  bootstrap_all_fail_degraded
    ⟨fun _ => Except.error "boom", Except.ok (), Except.ok (), Except.ok ()⟩
    (fun _ _ => ⟨"boom", rfl⟩)

/-- C6: when the retry loop connects, setup_typesense continues with exactly
the sequence delete collection, create collection from the fixed schema,
bulk-import the fixed sample records; the outcome of the delete is ignored
(the right-hand side does not mention it), a create failure skips the
import, the first create/import failure is only logged with its text, and
no exception escapes setup_typesense (second component false). -/
theorem bootstrap_provision_sequence (env : BootstrapEnv)
    (h : (connectLoopAux env.reach max_retries 0 2).2 = true) :
    setup_typesense env =
      ((connectLoopAux env.reach max_retries 0 2).1 ++
        (SetupAction.deleteCollection COLLECTION_NAME ::
         SetupAction.createCollection COLLECTION_SCHEMA ::
         match env.createOutcome with
         | .error e => [SetupAction.log ("Error setting up Typesense: " ++ e)]
         | .ok _ =>
           SetupAction.importDocuments sample_products ::
           match env.importOutcome with
           | .error e => [SetupAction.log ("Error setting up Typesense: " ++ e)]
           | .ok _ => [SetupAction.log "Typesense setup completed successfully!"]),
       false) := by
  rcases env with ⟨r, d, c, i⟩
  simp only at h
  cases d <;> cases c <;> cases i <;>
    simp [setup_typesense, setup_body, h]

/-- C6 witness: first attempt connects, the pre-existing collection delete
reports Not Found, create and import succeed. -/
theorem bootstrap_provision_sequence_witness :
    setup_typesense ⟨fun _ => Except.ok (), Except.error "Not Found",
        Except.ok (), Except.ok ()⟩ =
      ([SetupAction.attemptReach 0,
        SetupAction.log "Connected to Typesense on attempt 1",
        SetupAction.deleteCollection "products",
        SetupAction.createCollection COLLECTION_SCHEMA,
        SetupAction.importDocuments sample_products,
        SetupAction.log "Typesense setup completed successfully!"], false) :=
  (bootstrap_provision_sequence
    ⟨fun _ => Except.ok (), Except.error "Not Found", Except.ok (), Except.ok ()⟩
    (by decide)).trans rfl

/-- The overwrite-on-match fold of get_categories, when at most one facet
matches, yields the values of that facet, or the start value when none
matches. -/
theorem foldl_facet_once (g : Facet → List String) :
    ∀ (l : List Facet) (acc : List String),
      (l.filter (fun f => f.field_name == "category")).length ≤ 1 →
      l.foldl (fun categories facet =>
          if facet.field_name == "category" then g facet else categories) acc =
        (match l.filter (fun f => f.field_name == "category") with
         | [] => acc
         | f :: _ => g f) := by
  intro l
  induction l with
  | nil => intro acc h; rfl
  | cons f t ih =>
    intro acc h
    cases hf : (f.field_name == "category") with
    | true =>
      have hfc : List.filter (fun f => f.field_name == "category") (f :: t) =
          f :: List.filter (fun f => f.field_name == "category") t := by
        simp [List.filter_cons, hf]
      rw [hfc] at h ⊢
      have ht : t.filter (fun f => f.field_name == "category") = [] := by
        rw [List.length_cons] at h
        exact List.length_eq_zero.mp (by omega)
      simp only [List.foldl_cons, hf, if_true]
      rw [ih (g f) (by rw [ht]; simp), ht]
    | false =>
      have hfc : List.filter (fun f => f.field_name == "category") (f :: t) =
          List.filter (fun f => f.field_name == "category") t := by
        simp [List.filter_cons, hf]
      rw [hfc] at h ⊢
      simp only [List.foldl_cons, hf, if_false]
      exact ih acc h

/-- C8: when the engine answers the faceted search and its result carries at
most one facet named category (results with no facet_counts at all count
zero such facets), GET /categories/ returns exactly the values of that
facet's counts in engine order, and the empty list when there is no
facet_counts field or no category facet. -/
theorem get_categories_facet_values
    (search : FacetParams → Except String FacetResult) (results : FacetResult)
    (hok : search ⟨"*", "category"⟩ = Except.ok results)
    (huniq : ((results.facet_counts.getD []).filter
        (fun f => f.field_name == "category")).length ≤ 1) :
    get_categories search =
      .ok ⟨match (results.facet_counts.getD []).filter
              (fun f => f.field_name == "category") with
           | [] => []
           | f :: _ => f.counts.map (fun c => c.value)⟩ := by
  unfold get_categories
  rw [hok]
  rcases results with ⟨fc⟩
  rcases fc with _ | facets
  · rfl
  · simp only [Option.getD] at huniq ⊢
    unfold categories_of
    simp only
    rw [foldl_facet_once (fun f => f.counts.map (fun c => c.value)) facets [] huniq]

/-- C8 witness: a result with a category facet and a price facet. -/
theorem get_categories_facet_values_witness :
    get_categories (fun _ => Except.ok
        ⟨some [⟨"category", [⟨"Electronics"⟩, ⟨"Audio"⟩]⟩,
               ⟨"price", [⟨"999.99"⟩]⟩]⟩) =
      .ok ⟨["Electronics", "Audio"]⟩ :=
  (get_categories_facet_values
    (fun _ => Except.ok
        ⟨some [⟨"category", [⟨"Electronics"⟩, ⟨"Audio"⟩]⟩,
               ⟨"price", [⟨"999.99"⟩]⟩]⟩)
    ⟨some [⟨"category", [⟨"Electronics"⟩, ⟨"Audio"⟩]⟩,
           ⟨"price", [⟨"999.99"⟩]⟩]⟩
    rfl (by decide)).trans (by decide)

/-- Unrolled form of the per-collection loop of get_typesense_stats: the
final total is the initial one plus the found counts of the collections
whose count search succeeded, and one entry is appended per collection, a
numeric one on success and an "unknown" one on failure. -/
theorem stats_foldl {F Doc : Type}
    (searchDocs : String → CountParams → Except String (SearchResult Doc)) :
    ∀ (l : List (CollectionInfo F)) (total : Nat)
      (es : List CollectionStatsEntry),
      l.foldl (stats_entry_step searchDocs) (total, es) =
        (total + (l.filterMap (fun c =>
            match searchDocs c.name ⟨"*", 0⟩ with
            | .ok sr => some sr.found
            | .error _ => none)).sum,
         es ++ l.map (fun c =>
            match searchDocs c.name ⟨"*", 0⟩ with
            | .ok sr => ⟨c.name, .num sr.found, (c.fields.getD []).length⟩
            | .error _ => ⟨c.name, .str "unknown", (c.fields.getD []).length⟩)) := by
  intro l
  induction l with
  | nil => intro total es; simp
  | cons c t ih =>
    intro total es
    cases hc : searchDocs c.name ⟨"*", 0⟩ with
    | ok sr =>
      simp only [List.foldl_cons, stats_entry_step, hc, ih, List.filterMap_cons,
        List.map_cons, List.sum_cons]
      simp [Nat.add_assoc]
    | error e =>
      simp only [List.foldl_cons, stats_entry_step, hc, ih, List.filterMap_cons,
        List.map_cons]
      simp

/-- C9: whenever the collection listing succeeds, GET /admin/typesense/stats
answers 200 regardless of per-collection search failures; a collection whose
count search raises gets an entry whose document_count is the string
"unknown" and contributes nothing to total_documents, which is exactly the
sum of the found counts of the collections whose search succeeded. -/
theorem typesense_stats_unknown_fallback {F Doc : Type}
    (retrieve : Except String (List (CollectionInfo F)))
    (searchDocs : String → CountParams → Except String (SearchResult Doc))
    (collections : List (CollectionInfo F))
    (hok : retrieve = Except.ok collections) :
    get_typesense_stats retrieve searchDocs =
      .ok ⟨collections.length,
           (collections.filterMap (fun c =>
              match searchDocs c.name ⟨"*", 0⟩ with
              | .ok sr => some sr.found
              | .error _ => none)).sum,
           collections.map (fun c =>
              match searchDocs c.name ⟨"*", 0⟩ with
              | .ok sr =>
                ⟨c.name, JsonCount.num sr.found, (c.fields.getD []).length⟩
              | .error _ =>
                ⟨c.name, JsonCount.str "unknown", (c.fields.getD []).length⟩)⟩ := by
  subst hok
  simp only [get_typesense_stats]
  rw [stats_foldl]
  simp

/-- C9 witness: two collections, the search on "a" finds 3 documents, the
search on "b" raises. -/
theorem typesense_stats_unknown_fallback_witness :
    @get_typesense_stats Unit Unit
        (Except.ok [⟨"a", some [(), ()]⟩, ⟨"b", none⟩])
        (fun n _ => if n = "a" then Except.ok ⟨3, [], none⟩
                    else Except.error "boom") =
      .ok ⟨2, 3, [⟨"a", JsonCount.num 3, 2⟩,
                  ⟨"b", JsonCount.str "unknown", 0⟩]⟩ :=
  (@typesense_stats_unknown_fallback Unit Unit
    (Except.ok [⟨"a", some [(), ()]⟩, ⟨"b", none⟩])
    (fun n _ => if n = "a" then Except.ok ⟨3, [], none⟩
                else Except.error "boom")
    [⟨"a", some [(), ()]⟩, ⟨"b", none⟩] rfl).trans (by decide)
